import Mathlib

/-!
Verification of the restaurant-client frontend's core logic, shallowly
embedded from the TypeScript source.  The embedding covers:

* the order data model and the order-status realtime reconciliation
  handlers of the chef preparing view (`ChefOrdersPage`), the POS page
  (`PosPage.handleOrderUpdate`) and the delivered-orders list
  (`DeliveredOrdersList.handleOrderUpdate`);
* the POS payment computation (`OrderDetails`: subtotal, tax, total);
* the orders API gateway client (`ordersApi`), with HTTP outcomes
  modelled as `Except` values;
* the shared API client's 401 response interceptor;
* the session helpers `isTokenExpired` / `validateAuth`;
* the pricing helper `getItemPrice`;
* the route table of `App` with `AuthGuard`, `PosGuard` and `GuestGuard`;
* the category delete confirmation dialog and the single/batch delete
  flows of `CategoryPage`;
* the chef availability toggle (`ChefPage.handleToggleAvailability`).

JavaScript numbers are modelled as `Rat`, machine timestamps as `Int`,
absent (`undefined`/`null`) values as `Option`, and thrown errors as
`Except`.
-/

namespace RestaurantClient

/-- Order status enumeration, from `WaiterOrder['status']` in
`src/lib/api/orders.ts`. -/
inductive OrderStatus where
  | PENDING
  | PREPARING
  | READY
  | DELIVERED
  | COMPLETED
  | CANCELLED
deriving DecidableEq, Repr

/-- One order line item, from `OrderItem` in `src/lib/api/orders.ts`.
`price` is the unit price, `quantity` the ordered count. -/
structure OrderItem where
  id : Nat
  itemId : Nat
  quantity : Nat
  price : Rat
deriving DecidableEq, Repr

/-- The optional embedded table record of an order
(`WaiterOrder.table`). -/
structure TableRef where
  id : Nat
  tableNumber : Nat
deriving DecidableEq, Repr

/-- An order as the client receives it, from `WaiterOrder` in
`src/lib/api/orders.ts`.  `createdAt` is a timestamp. -/
structure WaiterOrder where
  id : Nat
  tableId : Nat
  table : Option TableRef
  status : OrderStatus
  total : Rat
  orderItems : List OrderItem
  createdAt : Nat
deriving DecidableEq, Repr

/-! ## Chef preparing view (`ChefOrdersPage`) -/

/-- A `DisplayOrder` of `ChefOrdersPage`: the order plus the derived
`tableName` string. -/
structure ChefDisplayOrder where
  order : WaiterOrder
  tableName : String
deriving DecidableEq, Repr

/-- The display transformation applied to an incoming
`order:status-preparing` event payload in `ChefOrdersPage`. -/
def displayOrderOfEvent (newOrder : WaiterOrder) : ChefDisplayOrder :=
  { order := newOrder
    tableName :=
      match newOrder.table with
      | some t => "Table " ++ toString t.tableNumber
      | none => "Table ID: " ++ toString newOrder.tableId }

/-- The `order:status-preparing` socket handler of `ChefOrdersPage`:
`setOrders((prevOrders) => [...prevOrders, displayOrder])`.  The event
payload is transformed for display and appended to the working set. -/
def chefOnStatusPreparing (prevOrders : List ChefDisplayOrder)
    (newOrder : WaiterOrder) : List ChefDisplayOrder :=
  prevOrders ++ [displayOrderOfEvent newOrder]

/-- Number of entries of the chef working set holding a given order id. -/
def countOrdersWithId (l : List ChefDisplayOrder) (orderId : Nat) : Nat :=
  l.countP (fun d => d.order.id == orderId)

/-- A sample order #42 in PREPARING state. -/
def order42 : WaiterOrder :=
  { id := 42
    tableId := 7
    table := some { id := 7, tableNumber := 7 }
    status := OrderStatus.PREPARING
    total := 200
    orderItems := [{ id := 1, itemId := 5, quantity := 2, price := 100 }]
    createdAt := 1000 }

/-! ## Pricing helper (`getItemPrice` in the shared utils) -/

/-- The price-carrying fields of a duck-typed menu item record as seen by
`getItemPrice`.  The outer `Option` is JavaScript presence
(`undefined`/`null` are `none`); the inner `Option Rat` is the numeric
value after the `typeof ... === 'number' ? ... : parseFloat(String(...))`
coercion, with `none` standing for `NaN`. -/
structure JsMenuItemPrices where
  halfPrice : Option (Option Rat)
  fullPrice : Option (Option Rat)
  price : Option (Option Rat)
deriving DecidableEq, Repr

/-- `getItemPrice(item, isHalfPortion)` from the shared utils: half price
when a half portion is requested and `halfPrice` is present (0 when it
parses to `NaN`); otherwise `fullPrice` when present; otherwise the
legacy `price` field when present; otherwise 0.  A missing item yields
0. -/
def getItemPrice (item : Option JsMenuItemPrices) (isHalfPortion : Bool) : Rat :=
  match item with
  | none => 0
  | some it =>
    match isHalfPortion, it.halfPrice with
    | true, some parsedHalf => parsedHalf.getD 0
    | _, _ =>
      match it.fullPrice with
      | some parsedFull => parsedFull.getD 0
      | none =>
        match it.price with
        | some parsedPrice => parsedPrice.getD 0
        | none => 0

/-! ## Session helpers (`AuthHelpers`) -/

/-- `isTokenExpired` from the auth helpers.  `storedToken` is the value
of `localStorage.getItem('auth-token')` (`none` when absent, and the
falsy empty string is checked like the source's `if (!token)`).
`decodePayload` models `JSON.parse(atob(payload))` restricted to the
`exp` claim: `none` when decoding or parsing throws, `some expClaim`
when it yields an object whose optional numeric `exp` claim is
`expClaim`.  `now` is `Date.now() / 1000`.  A payload without an `exp`
claim yields `false` because `undefined < now` is `false` in
JavaScript. -/
def isTokenExpired (decodePayload : String → Option (Option Int))
    (storedToken : Option String) (now : Int) : Bool :=
  match storedToken with
  | none => true
  | some token =>
    if token = "" then true
    else
      match (token.splitOn ".")[1]? with
      | none => true
      | some payload =>
        if payload = "" then true
        else
          match decodePayload payload with
          | none => true
          | some expClaim =>
            match expClaim with
            | none => false
            | some exp => decide (exp < now)

/-- The spec's "well-formed, unexpired token": present and non-empty,
its middle segment exists and is non-empty, the segment decodes and
parses, and the decoded expiry claim (when present) is not in the
past. -/
def tokenWellFormedNotExpired (decodePayload : String → Option (Option Int))
    (storedToken : Option String) (now : Int) : Prop :=
  ∃ token payload expClaim,
    storedToken = some token ∧ token ≠ "" ∧
    (token.splitOn ".")[1]? = some payload ∧ payload ≠ "" ∧
    decodePayload payload = some expClaim ∧
    ∀ exp, expClaim = some exp → ¬ exp < now

/-! ## Realtime reconciliation handlers (POS page and delivered list) -/

/-- `PosPage.handleOrderUpdate`, the `order:status-change` handler of the
POS page: a DELIVERED order is prepended when no order with its id is
present; a COMPLETED order is removed by id when present; every other
status leaves the working set unchanged. -/
def posHandleOrderUpdate (updatedOrder : WaiterOrder)
    (prevOrders : List WaiterOrder) : List WaiterOrder :=
  if updatedOrder.status = OrderStatus.DELIVERED then
    if prevOrders.any (fun o => o.id == updatedOrder.id) then prevOrders
    else updatedOrder :: prevOrders
  else if updatedOrder.status = OrderStatus.COMPLETED then
    if prevOrders.any (fun o => o.id == updatedOrder.id) then
      prevOrders.filter (fun o => o.id != updatedOrder.id)
    else prevOrders
  else prevOrders

/-- `DeliveredOrdersList.handleOrderUpdate`: a DELIVERED order is
prepended when absent; a COMPLETED order is replaced by id on the "all"
tab and removed by id on the "recent" tab; every other status leaves
the working set unchanged. -/
def deliveredListHandleOrderUpdate (tabValue : String)
    (updatedOrder : WaiterOrder) (orders : List WaiterOrder) :
    List WaiterOrder :=
  if updatedOrder.status = OrderStatus.DELIVERED then
    if orders.any (fun o => o.id == updatedOrder.id) then orders
    else updatedOrder :: orders
  else if updatedOrder.status = OrderStatus.COMPLETED then
    if tabValue = "all" then
      orders.map (fun o => if o.id == updatedOrder.id then updatedOrder else o)
    else
      orders.filter (fun o => o.id != updatedOrder.id)
  else orders

/-! ## POS payment computation (`OrderDetails`) -/

/-- `calculateSubtotal` of `OrderDetails`:
`order.orderItems.reduce((sum, item) => sum + Number(item.price) * item.quantity, 0)`. -/
def calculateSubtotal (order : WaiterOrder) : Rat :=
  order.orderItems.foldl (fun sum item => sum + item.price * (item.quantity : Rat)) 0

/-- `calculateTaxAmount` of `OrderDetails`: `(subtotal * taxPercentage) / 100`. -/
def calculateTaxAmount (order : WaiterOrder) (taxPercentage : Rat) : Rat :=
  calculateSubtotal order * taxPercentage / 100

/-- `calculateTotal` of `OrderDetails`: `subtotal + taxAmount`. -/
def calculateTotal (order : WaiterOrder) (taxPercentage : Rat) : Rat :=
  calculateSubtotal order + calculateTaxAmount order taxPercentage

/-- `useState(5)`: the default tax percentage of `OrderDetails`. -/
def defaultTaxPercentage : Rat := 5

/-- The payment details object submitted by
`OrderDetails.handleCompletePayment`. -/
structure PosPaymentDetails where
  paymentMethod : String
  amountPaid : Rat
  taxPercentage : Rat
  taxAmount : Rat
  subtotal : Rat
  notes : String
deriving DecidableEq, Repr

/-- The `paymentDetails` value built in
`OrderDetails.handleCompletePayment` and passed to `onCompleteOrder`. -/
def posPaymentDetails (order : WaiterOrder) (taxPercentage : Rat)
    (paymentMethod : String) : PosPaymentDetails :=
  { paymentMethod := paymentMethod
    amountPaid := calculateTotal order taxPercentage
    taxPercentage := taxPercentage
    taxAmount := calculateTaxAmount order taxPercentage
    subtotal := calculateSubtotal order
    notes := "Payment processed by POS admin for table " ++
      (match order.table with
       | some t => toString t.tableNumber
       | none => "Unknown") }

/-! ## Orders API gateway client (`ordersApi`)

Each operation wraps one HTTP call in `try`/`catch`.  The outcome of the
underlying HTTP call is passed in as an `Except ApiError` value; the
operation's body mirrors what the `catch` block does with a failure
(`console.error` has no effect on the returned value and is dropped). -/

/-- A thrown HTTP/transport error. -/
structure ApiError where
  message : String
deriving DecidableEq, Repr

/-- Waiter dashboard payload of `GET /waiter/dashboard/orders`. -/
structure WaiterDashboardOrders where
  activeOrders : List WaiterOrder
  completedOrders : List WaiterOrder
deriving DecidableEq, Repr

namespace ordersApi

/-- `ordersApi.getAll`: logs and rethrows on failure. -/
def getAll (call : Except ApiError (List WaiterOrder)) :
    Except ApiError (List WaiterOrder) :=
  match call with
  | Except.ok data => Except.ok data
  | Except.error e => Except.error e

/-- `ordersApi.getById`: logs and rethrows on failure. -/
def getById (orderId : Nat) (call : Except ApiError WaiterOrder) :
    Except ApiError WaiterOrder :=
  match orderId, call with
  | _, Except.ok data => Except.ok data
  | _, Except.error e => Except.error e

/-- `ordersApi.getByStatus`: logs and rethrows on failure. -/
def getByStatus (status : OrderStatus)
    (call : Except ApiError (List WaiterOrder)) :
    Except ApiError (List WaiterOrder) :=
  match status, call with
  | _, Except.ok data => Except.ok data
  | _, Except.error e => Except.error e

/-- `ordersApi.updateStatus`: logs and rethrows on failure. -/
def updateStatus (orderId : Nat) (status : OrderStatus)
    (call : Except ApiError WaiterOrder) : Except ApiError WaiterOrder :=
  match orderId, status, call with
  | _, _, Except.ok data => Except.ok data
  | _, _, Except.error e => Except.error e

/-- `ordersApi.getWaiterDashboardOrders`: logs and rethrows on failure. -/
def getWaiterDashboardOrders (call : Except ApiError WaiterDashboardOrders) :
    Except ApiError WaiterDashboardOrders :=
  match call with
  | Except.ok data => Except.ok data
  | Except.error e => Except.error e

/-- `ordersApi.getDeliveredOrders`: the one operation whose `catch`
block does not rethrow — it logs and `return []`. -/
def getDeliveredOrders (call : Except ApiError (List WaiterOrder)) :
    Except ApiError (List WaiterOrder) :=
  match call with
  | Except.ok data => Except.ok data
  | Except.error _ => Except.ok []

/-- `ordersApi.completeOrder`: logs and rethrows on failure.  The
success payload is the finalized order and a message. -/
def completeOrder (orderId : Nat) (paymentDetails : PosPaymentDetails)
    (call : Except ApiError (WaiterOrder × String)) :
    Except ApiError (WaiterOrder × String) :=
  match orderId, paymentDetails, call with
  | _, _, Except.ok data => Except.ok data
  | _, _, Except.error e => Except.error e

end ordersApi

/-! ## Shared API client 401 interceptor (`client.ts`) -/

/-- The error payload fields the response interceptor inspects:
`response.status` and `response.data?.message` (the latter is `none`
when `data` or `message` is absent). -/
structure HttpErrorResponse where
  status : Nat
  message : Option String
deriving DecidableEq, Repr

/-- The exact message the backend sends for an authenticated user with
no role. -/
def noRoleMessage : String := "User has not been assigned a role"

/-- Whether the response interceptor of `apiClient` invokes `logout()`
for a failed request.  `response` is `none` when the error carries no
response (pure network failure).  The interceptor always re-rejects the
error afterwards, which is not modelled here. -/
def responseInterceptorLogsOut (response : Option HttpErrorResponse) : Bool :=
  match response with
  | none => false
  | some r => r.status == 401 && !(r.message == some noRoleMessage)

/-! ## Route guards and the route table of `App` -/

/-- The role enumeration of `AuthContext` (numeric values 0..3 in the
source). -/
inductive Role where
  | ADMIN
  | CHEF
  | WAITER
  | POS_ADMIN
deriving DecidableEq, Repr

/-- What rendering a route produces: a redirect to `/login` carrying the
originally requested location in `state.from`, a plain redirect, or the
route's own content. -/
inductive RenderResult where
  | redirectLoginFrom (fromPath : String)
  | redirect (toPath : String)
  | page (name : String)
deriving DecidableEq, Repr

/-- The static role → home-route mapping used by `AuthGuard` (and by
`GuestGuard`) when redirecting from the root path. -/
def roleHome (userRole : Option Role) : String :=
  match userRole with
  | some Role.ADMIN => "/admin/dashboard"
  | some Role.CHEF => "/chef"
  | some Role.WAITER => "/waiter"
  | some Role.POS_ADMIN => "/posAdmin/pos"
  | none => "/menu"

/-- `AuthGuard`: unauthenticated or invalid-token access redirects to
`/login` with `state={{ from: location }}`; at the root path an
authenticated user is redirected to their role home; otherwise the
child renders. -/
def authGuard (isAuthenticated isTokenValid : Bool) (userRole : Option Role)
    (path : String) (child : RenderResult) : RenderResult :=
  if !isAuthenticated || !isTokenValid then
    RenderResult.redirectLoginFrom path
  else if path = "/" then
    RenderResult.redirect (roleHome userRole)
  else child

/-- `PosGuard` from `App`: unauthenticated access redirects to `/login`
(without carrying the location); non-ADMIN/POS_ADMIN roles are sent to
the root. -/
def posGuard (isAuthenticated : Bool) (userRole : Option Role)
    (child : RenderResult) : RenderResult :=
  if !isAuthenticated then RenderResult.redirect "/login"
  else if userRole = some Role.ADMIN ∨ userRole = some Role.POS_ADMIN then child
  else RenderResult.redirect "/"

/-- `GuestGuard`: authenticated role-less users may see `/newUser` and
`/login`; an authenticated user with a valid token is otherwise sent to
their role home (role-less users to `/newUser` except on `/login`);
everyone else sees the child. -/
def guestGuard (isAuthenticated isTokenValid : Bool) (userRole : Option Role)
    (path : String) (child : RenderResult) : RenderResult :=
  if (path = "/newUser" ∨ path = "/login") ∧ isAuthenticated ∧ userRole = none then
    child
  else if isAuthenticated ∧ isTokenValid then
    match userRole with
    | some Role.ADMIN => RenderResult.redirect "/admin/dashboard"
    | some Role.CHEF => RenderResult.redirect "/chef"
    | some Role.WAITER => RenderResult.redirect "/waiter"
    | some Role.POS_ADMIN => RenderResult.redirect "/posAdmin/pos"
    | none =>
      if path ≠ "/login" then RenderResult.redirect "/newUser"
      else RenderResult.redirect "/menu"
  else child

/-- The route table of `App`.  Every `/admin` route and the root are
wrapped in `AuthGuard`; `/posAdmin/pos` additionally in `PosGuard`; the
chef and waiter routes are mounted WITHOUT any guard (source comment:
"not using AuthGuard to prevent infinite update loop"); guest routes
use `GuestGuard`; `/table/:tableNumber` is public; anything else
redirects to the root. -/
def renderRoute (isAuthenticated isTokenValid : Bool) (userRole : Option Role)
    (path : String) : RenderResult :=
  if path = "/" then
    authGuard isAuthenticated isTokenValid userRole path (RenderResult.page "RootLoading")
  else if path = "/admin" then
    authGuard isAuthenticated isTokenValid userRole path (RenderResult.redirect "/admin/dashboard")
  else if path = "/admin/dashboard" then
    authGuard isAuthenticated isTokenValid userRole path (RenderResult.page "AdminDashboard")
  else if path = "/admin/categories" then
    authGuard isAuthenticated isTokenValid userRole path (RenderResult.page "CategoryPage")
  else if path = "/admin/menus" then
    authGuard isAuthenticated isTokenValid userRole path (RenderResult.page "ManageMenusPage")
  else if path = "/admin/items" then
    authGuard isAuthenticated isTokenValid userRole path (RenderResult.page "ItemPage")
  else if path = "/admin/tables" then
    authGuard isAuthenticated isTokenValid userRole path (RenderResult.page "TablePage")
  else if path = "/admin/settings" then
    authGuard isAuthenticated isTokenValid userRole path (RenderResult.page "SettingsPage")
  else if path = "/posAdmin/pos" then
    authGuard isAuthenticated isTokenValid userRole path
      (posGuard isAuthenticated userRole (RenderResult.page "PosPage"))
  else if path = "/chef" then RenderResult.page "ChefDashboard"
  else if path = "/chef/orders" then RenderResult.page "ChefOrdersPage"
  else if path = "/waiter" then RenderResult.page "WaiterDashboard"
  else if path = "/waiter/orders" then RenderResult.page "WaiterOrdersPage"
  else if path = "/waiter/ordersKOT" then RenderResult.page "WaiterOrdersKOTPage"
  else if path = "/login" then
    guestGuard isAuthenticated isTokenValid userRole path (RenderResult.page "LoginPage")
  else if path = "/signup" then
    guestGuard isAuthenticated isTokenValid userRole path (RenderResult.page "SignupPage")
  else if path = "/newUser" then
    guestGuard isAuthenticated isTokenValid userRole path (RenderResult.page "NewUserPage")
  else if path.startsWith "/table/" then RenderResult.page "MenuCardPage"
  else RenderResult.redirect "/"

/-! ## Category deletion flow (`CategoryPage` and
`DeleteCategoryConfirmDialog`) -/

/-- A category record, from `categories.ts`. -/
structure Category where
  id : Nat
  name : String
  description : Option String
deriving DecidableEq, Repr

/-- A menu item with the fields used by `CategoryPage` and `ChefPage`. -/
structure MenuItem where
  id : Nat
  name : String
  categoryId : Nat
  isAvailable : Bool
  fullPrice : Rat
deriving DecidableEq, Repr

/-- `getCategoryItemCount` of `CategoryPage`: number of menu items
referencing the category. -/
def getCategoryItemCount (menuItems : List MenuItem) (categoryId : Nat) : Nat :=
  (menuItems.filter (fun item => item.categoryId == categoryId)).length

/-- JavaScript truthiness of an optional string prop (absent and empty
strings are falsy). -/
def strTruthy (s : Option String) : Bool :=
  match s with
  | none => false
  | some str => str != ""

/-- `DeleteCategoryConfirmDialog` renders nothing at all when neither a
category nor a title nor a description was supplied:
`if (!category && !title && !description) return null`. -/
def deleteCategoryDialogRendersNothing (category : Option Category)
    (title description : Option String) : Bool :=
  !category.isSome && !strTruthy title && !strTruthy description

/-- Whether `DeleteCategoryConfirmDialog` renders the confirming
"Delete" action: the source guards it with `(!hasItems || description)`
where `hasItems = itemCount > 0`. -/
def deleteCategoryConfirmAvailable (category : Option Category)
    (title description : Option String) (itemCount : Nat) : Bool :=
  if deleteCategoryDialogRendersNothing category title description then false
  else decide (itemCount = 0) || strTruthy description

/-- The single-delete dialog as `CategoryPage` instantiates it: the
current category, no title, no description, and the live referencing
item count. -/
def singleDeleteConfirmAvailable (menuItems : List MenuItem)
    (currentCategory : Category) : Bool :=
  deleteCategoryConfirmAvailable (some currentCategory) none none
    (getCategoryItemCount menuItems currentCategory.id)

/-- The batch-delete dialog description built in `CategoryPage`. -/
def batchDeleteDialogDescription (selectedCount : Nat) : String :=
  "Are you sure you want to delete " ++ toString selectedCount ++
    " categories? This action cannot be undone."

/-- The batch-delete dialog as `CategoryPage` instantiates it: no
category, a fixed title, a description, and the summed referencing item
count of all selected categories. -/
def batchDeleteConfirmAvailable (menuItems : List MenuItem)
    (selectedCategories : List Nat) : Bool :=
  deleteCategoryConfirmAvailable none (some "Delete Multiple Categories")
    (some (batchDeleteDialogDescription selectedCategories.length))
    (selectedCategories.foldl
      (fun total categoryId => total + getCategoryItemCount menuItems categoryId) 0)

/-- `handleBatchDeleteCategories` of `CategoryPage`, abstracted to the
category ids for which `categoriesApi.delete` is issued: it returns
early on an empty selection and otherwise issues one DELETE per
selected id, with no item-count check. -/
def handleBatchDeleteCategories (selectedCategories : List Nat) : List Nat :=
  if selectedCategories.length = 0 then [] else selectedCategories

/-! ## Chef availability toggle (`ChefPage.handleToggleAvailability`) -/

/-- The optimistic update applied before the backend call:
`prevItems.map(i => i.id === item.id ? { ...i, isAvailable: !i.isAvailable } : i)`. -/
def chefToggleOptimistic (items : List MenuItem) (target : MenuItem) :
    List MenuItem :=
  items.map (fun i =>
    if i.id == target.id then { i with isAvailable := !i.isAvailable } else i)

/-- The revert applied in the `catch` block when the backend call fails:
`prevItems.map(i => i.id === item.id ? { ...i, isAvailable: item.isAvailable } : i)`. -/
def chefToggleRevert (items : List MenuItem) (target : MenuItem) :
    List MenuItem :=
  items.map (fun i =>
    if i.id == target.id then { i with isAvailable := target.isAvailable } else i)

/-! ## Concrete sample data used by counterexamples and witnesses -/

/-- A sample DELIVERED order #99 whose line items sum to 200. -/
def order99 : WaiterOrder :=
  { id := 99
    tableId := 3
    table := some { id := 3, tableNumber := 3 }
    status := OrderStatus.DELIVERED
    total := 200
    orderItems :=
      [{ id := 1, itemId := 11, quantity := 2, price := 50 },
       { id := 2, itemId := 12, quantity := 1, price := 100 }]
    createdAt := 2000 }

/-- A sample menu item referencing category 7. -/
def dalItem : MenuItem :=
  { id := 1, name := "Dal", categoryId := 7, isAvailable := true, fullPrice := 10 }

/-- A second sample menu item, in another category. -/
def teaItem : MenuItem :=
  { id := 2, name := "Tea", categoryId := 9, isAvailable := false, fullPrice := 3 }

/-- A sample category with id 7. -/
def startersCategory : Category :=
  { id := 7, name := "Starters", description := none }

/-- A sample payload decoder for session-helper witnesses: the payload
string "p" parses to an object with expiry claim 100, everything else
fails to decode. -/
def sampleDecode (payload : String) : Option (Option Int) :=
  if payload = "p" then some (some 100) else none

/-! # Theorems

General-purpose lemmas first, then one theorem per claim (with its
counterexample and witness theorems where applicable). -/

/-- Folding addition of a mapped value over a list from any start equals
the start plus the sum of the mapped list. -/
theorem foldl_add_eq_add_sum {α : Type} (f : α → Rat) (l : List α) (a : Rat) :
    l.foldl (fun s x => s + f x) a = a + (l.map f).sum := by
  induction l generalizing a with
  | nil => simp
  | cons x xs ih => simp [List.foldl_cons, ih, add_assoc]

/-- Mapping a function that fixes every member of a list leaves the list
unchanged. -/
theorem map_eq_self_of_mem {α : Type} (l : List α) (g : α → α)
    (h : ∀ a ∈ l, g a = a) : l.map g = l := by
  induction l with
  | nil => rfl
  | cons a as ih =>
    simp only [List.map_cons, h a (by simp), List.cons.injEq, true_and]
    exact ih fun x hx => h x (by simp [hx])

/-- After filtering out every order with id `k`, no order with id `k`
remains. -/
theorem any_filter_ne_id (l : List WaiterOrder) (k : Nat) :
    (l.filter fun o => o.id != k).any (fun o => o.id == k) = false := by
  induction l with
  | nil => rfl
  | cons a as ih =>
    by_cases h : a.id = k
    · simp [List.filter_cons, h, ih]
    · simp only [List.filter_cons]
      have hb : (a.id != k) = true := by simp [h]
      simp [hb, List.any_cons, ih, h]

/-- Filtering out orders with id `k` twice is the same as doing it
once. -/
theorem filter_ne_id_idem (l : List WaiterOrder) (k : Nat) :
    ((l.filter fun o => o.id != k).filter fun o => o.id != k) =
      l.filter fun o => o.id != k := by
  rw [List.filter_eq_self]
  intro a ha
  exact (List.mem_filter.mp ha).2

/-- Replacing the order with a given id twice is the same as doing it
once. -/
theorem map_replace_id_idem (u : WaiterOrder) (l : List WaiterOrder) :
    ((l.map fun o => if o.id == u.id then u else o).map
        fun o => if o.id == u.id then u else o) =
      l.map fun o => if o.id == u.id then u else o := by
  induction l with
  | nil => rfl
  | cons a as ih =>
    simp only [List.map_cons, ih, List.cons.injEq, and_true]
    by_cases h : a.id = u.id
    · simp [h]
    · simp [h]

/-- C7: `getItemPrice` with a requested half portion returns the half
price when present and numeric; falls back to the full price when the
half price is absent; falls back to the legacy `price` field when the
full price is absent; returns 0 when all three fields are absent or all
are present but non-numeric (`NaN`); and returns 0 for a missing item,
for either portion flag. -/
theorem C7_getItemPrice_resolution :
    (∀ (f p : Option (Option Rat)) (q : Rat),
      getItemPrice (some { halfPrice := some (some q), fullPrice := f, price := p }) true = q) ∧
    (∀ (p : Option (Option Rat)) (q : Rat),
      getItemPrice (some { halfPrice := none, fullPrice := some (some q), price := p }) true = q) ∧
    (∀ q : Rat,
      getItemPrice (some { halfPrice := none, fullPrice := none, price := some (some q) }) true = q) ∧
    getItemPrice (some { halfPrice := none, fullPrice := none, price := none }) true = 0 ∧
    getItemPrice (some { halfPrice := some none, fullPrice := some none, price := some none }) true = 0 ∧
    getItemPrice none true = 0 ∧
    getItemPrice none false = 0 :=
  ⟨fun _ _ _ => rfl, fun _ _ => rfl, fun _ => rfl, rfl, rfl, rfl, rfl⟩

/-- C6: `isTokenExpired` returns `false` exactly for a well-formed,
unexpired token: the stored token is present and non-empty, its middle
segment exists and is non-empty, the segment decodes and parses, and
the decoded expiry claim — when present — is not before `now`.
Consequently it returns `true` for a missing token, for a token whose
middle segment is missing or fails to decode or parse, and for a token
whose decoded expiry is in the past (fail-closed). -/
theorem C6_isTokenExpired_fail_closed :
    ∀ (decodePayload : String → Option (Option Int))
      (storedToken : Option String) (now : Int),
      isTokenExpired decodePayload storedToken now = false ↔
        tokenWellFormedNotExpired decodePayload storedToken now := by
  intro dec stored now
  constructor
  · intro h
    cases stored with
    | none => simp [isTokenExpired] at h
    | some token =>
      by_cases ht : token = ""
      · simp [isTokenExpired, ht] at h
      · cases hp : (token.splitOn ".")[1]? with
        | none => simp [isTokenExpired, ht, hp] at h
        | some payload =>
          by_cases hpe : payload = ""
          · simp [isTokenExpired, ht, hp, hpe] at h
          · cases hd : dec payload with
            | none => simp [isTokenExpired, ht, hp, hpe, hd] at h
            | some expClaim =>
              refine ⟨token, payload, expClaim, rfl, ht, hp, hpe, hd, ?_⟩
              intro exp he
              subst he
              simp [isTokenExpired, ht, hp, hpe, hd] at h
              exact not_lt.mpr h
  · rintro ⟨token, payload, expClaim, hs, ht, hp, hpe, hd, hexp⟩
    subst hs
    simp only [isTokenExpired, hp, hd, if_neg ht, if_neg hpe]
    cases expClaim with
    | none => rfl
    | some exp => simpa using hexp exp rfl

/-- C5 counterpart of the interceptor: for a 401 response, `logout()`
is invoked exactly when the payload message differs from the "no role
assigned" signal; a 401 carrying that signal never logs the user
out. -/
theorem C5_401_logout_iff_not_noRole :
    ∀ r : HttpErrorResponse, r.status = 401 →
      (responseInterceptorLogsOut (some r) = true ↔
        r.message ≠ some noRoleMessage) := by
  intro r h
  simp [responseInterceptorLogsOut, h]

/-- Witness for C5: a 401 with an unrelated message logs out, a 401
with the "no role assigned" message does not. -/
theorem C5_401_logout_witness :
    responseInterceptorLogsOut (some { status := 401, message := some "jwt expired" }) = true ∧
    responseInterceptorLogsOut (some { status := 401, message := some noRoleMessage }) ≠ true :=
  ⟨(C5_401_logout_iff_not_noRole { status := 401, message := some "jwt expired" } rfl).mpr
      (by decide),
   fun hcontra =>
    (C5_401_logout_iff_not_noRole { status := 401, message := some noRoleMessage } rfl).mp
      hcontra rfl⟩

/-- C4 counterexample: `ordersApi.getDeliveredOrders` does not
propagate a failed HTTP call — it catches the error and returns the
empty list as a substitute value. -/
theorem C4_counterexample_getDeliveredOrders_swallows :
    ordersApi.getDeliveredOrders (Except.error { message := "Network Error" }) =
      Except.ok ([] : List WaiterOrder) := rfl

/-- C4 amended: every `ordersApi` operation except `getDeliveredOrders`
returns the HTTP outcome unchanged (success passed through, failure
rethrown); `getDeliveredOrders` passes successes through but converts
every failure into an empty-list success. -/
theorem C4_amended_error_propagation :
    (∀ call, ordersApi.getAll call = call) ∧
    (∀ orderId call, ordersApi.getById orderId call = call) ∧
    (∀ status call, ordersApi.getByStatus status call = call) ∧
    (∀ orderId status call, ordersApi.updateStatus orderId status call = call) ∧
    (∀ call, ordersApi.getWaiterDashboardOrders call = call) ∧
    (∀ orderId pd call, ordersApi.completeOrder orderId pd call = call) ∧
    (∀ data, ordersApi.getDeliveredOrders (Except.ok data) = Except.ok data) ∧
    (∀ e, ordersApi.getDeliveredOrders (Except.error e) =
      Except.ok ([] : List WaiterOrder)) :=
  ⟨fun call => by cases call <;> rfl,
   fun _ call => by cases call <;> rfl,
   fun _ call => by cases call <;> rfl,
   fun _ _ call => by cases call <;> rfl,
   fun call => by cases call <;> rfl,
   fun _ _ call => by cases call <;> rfl,
   fun _ => rfl,
   fun _ => rfl⟩

/-- C2: both generic status-changed reconciliation handlers are
idempotent — applying the handler twice with the same event yields the
same working set as applying it once, for every event status and every
working set (insertion is guarded by the already-present-by-id check;
a present order is replaced or removed by id, never appended again). -/
theorem C2_reconciliation_idempotent :
    (∀ (updatedOrder : WaiterOrder) (prevOrders : List WaiterOrder),
      posHandleOrderUpdate updatedOrder (posHandleOrderUpdate updatedOrder prevOrders) =
        posHandleOrderUpdate updatedOrder prevOrders) ∧
    (∀ (tabValue : String) (updatedOrder : WaiterOrder) (orders : List WaiterOrder),
      deliveredListHandleOrderUpdate tabValue updatedOrder
          (deliveredListHandleOrderUpdate tabValue updatedOrder orders) =
        deliveredListHandleOrderUpdate tabValue updatedOrder orders) := by
  constructor
  · intro u prev
    by_cases hD : u.status = OrderStatus.DELIVERED
    · simp only [posHandleOrderUpdate, if_pos hD]
      cases hAny : prev.any (fun o => o.id == u.id) with
      | true => simp [hAny]
      | false => simp [hAny]
    · by_cases hC : u.status = OrderStatus.COMPLETED
      · simp only [posHandleOrderUpdate, if_neg hD, if_pos hC]
        cases hAny : prev.any (fun o => o.id == u.id) with
        | true => simp [hAny, any_filter_ne_id]
        | false => simp [hAny]
      · simp [posHandleOrderUpdate, hD, hC]
  · intro tab u orders
    by_cases hD : u.status = OrderStatus.DELIVERED
    · simp only [deliveredListHandleOrderUpdate, if_pos hD]
      cases hAny : orders.any (fun o => o.id == u.id) with
      | true => simp [hAny]
      | false => simp [hAny]
    · by_cases hC : u.status = OrderStatus.COMPLETED
      · simp only [deliveredListHandleOrderUpdate, if_neg hD, if_pos hC]
        by_cases hTab : tab = "all"
        · simp only [hTab, if_pos rfl]
          exact map_replace_id_idem u orders
        · simp [hTab, filter_ne_id_idem]
      · simp [deliveredListHandleOrderUpdate, hD, hC]

/-- C3: the POS payment submission carries
`subtotal = Σ (price × quantity)` over the order's line items,
`taxAmount = subtotal × pct / 100`, and
`amountPaid = subtotal + taxAmount`; the default tax percentage is 5,
and the sample order with subtotal 200 at 5% tax is submitted with
`amountPaid = 210`. -/
theorem C3_pos_payment_amounts :
    (∀ (order : WaiterOrder) (pct : Rat) (method : String),
      (posPaymentDetails order pct method).subtotal =
        (order.orderItems.map (fun item => item.price * (item.quantity : Rat))).sum ∧
      (posPaymentDetails order pct method).taxAmount =
        (posPaymentDetails order pct method).subtotal * pct / 100 ∧
      (posPaymentDetails order pct method).amountPaid =
        (posPaymentDetails order pct method).subtotal +
          (posPaymentDetails order pct method).taxAmount) ∧
    defaultTaxPercentage = 5 ∧
    (posPaymentDetails order99 defaultTaxPercentage "cash").subtotal = 200 ∧
    (posPaymentDetails order99 defaultTaxPercentage "cash").taxAmount = 10 ∧
    (posPaymentDetails order99 defaultTaxPercentage "cash").amountPaid = 210 := by
  refine ⟨fun order pct method => ⟨?_, rfl, rfl⟩, rfl, ?_, ?_, ?_⟩
  · simp [posPaymentDetails, calculateSubtotal, foldl_add_eq_add_sum]
  · show calculateSubtotal order99 = 200
    norm_num [calculateSubtotal, order99]
  · show calculateSubtotal order99 * defaultTaxPercentage / 100 = 10
    norm_num [calculateSubtotal, order99, defaultTaxPercentage]
  · show calculateSubtotal order99 + calculateSubtotal order99 * defaultTaxPercentage / 100 = 210
    norm_num [calculateSubtotal, order99, defaultTaxPercentage]

/-- C1 counterexample: the `order:status-preparing` handler of
`ChefOrdersPage` appends unconditionally, so delivering the event for
order #42 while the working set already contains order #42 leaves it
present twice, not exactly once as the claim states. -/
theorem C1_counterexample_duplicate_append :
    countOrdersWithId
        (chefOnStatusPreparing [displayOrderOfEvent order42] order42) 42 = 2 ∧
    countOrdersWithId
        (chefOnStatusPreparing [displayOrderOfEvent order42] order42) 42 ≠ 1 := by
  constructor <;> decide

/-- C1 amended: the handler appends the display-transformed event
payload unconditionally, so each delivery increases the number of
working-set entries carrying the event's order id by exactly one; the
order therefore appears exactly once afterwards precisely in the
scenario where it was not already present (e.g. the initial fetch
predated the event), and appears twice when it was already present or
the event is delivered twice. -/
theorem C1_amended_append_increments :
    ∀ (prevOrders : List ChefDisplayOrder) (newOrder : WaiterOrder),
      countOrdersWithId (chefOnStatusPreparing prevOrders newOrder) newOrder.id =
        countOrdersWithId prevOrders newOrder.id + 1 ∧
      (countOrdersWithId prevOrders newOrder.id = 0 →
        countOrdersWithId (chefOnStatusPreparing prevOrders newOrder) newOrder.id = 1) := by
  intro prev newOrder
  have hmain :
      countOrdersWithId (chefOnStatusPreparing prev newOrder) newOrder.id =
        countOrdersWithId prev newOrder.id + 1 := by
    simp [countOrdersWithId, chefOnStatusPreparing, List.countP_append,
      List.countP_cons, displayOrderOfEvent]
  exact ⟨hmain, fun h0 => by rw [hmain, h0]⟩

/-- Witness for C1 amended: delivering the preparing event for order
#42 into an empty working set makes it appear exactly once. -/
theorem C1_amended_witness :
    countOrdersWithId (chefOnStatusPreparing [] order42) 42 = 1 :=
  (C1_amended_append_increments [] order42).2 (by decide)

/-- C8 counterexample: the chef and waiter routes are mounted without
any guard, so rendering them unauthenticated yields the protected view
itself, not a redirect to login. -/
theorem C8_counterexample_unguarded_chef_waiter :
    renderRoute false true none "/chef" = RenderResult.page "ChefDashboard" ∧
    renderRoute false true none "/waiter" = RenderResult.page "WaiterDashboard" := by
  constructor <;> decide

/-- C8 amended: unauthenticated access to the root, the admin routes
and the POS route redirects to login carrying the originally requested
location; the chef and waiter routes, however, are mounted without a
guard and render their views to unauthenticated visitors. -/
theorem C8_amended_guard_coverage :
    ∀ (isTokenValid : Bool) (userRole : Option Role),
      renderRoute false isTokenValid userRole "/" =
        RenderResult.redirectLoginFrom "/" ∧
      renderRoute false isTokenValid userRole "/admin" =
        RenderResult.redirectLoginFrom "/admin" ∧
      renderRoute false isTokenValid userRole "/admin/dashboard" =
        RenderResult.redirectLoginFrom "/admin/dashboard" ∧
      renderRoute false isTokenValid userRole "/admin/categories" =
        RenderResult.redirectLoginFrom "/admin/categories" ∧
      renderRoute false isTokenValid userRole "/admin/menus" =
        RenderResult.redirectLoginFrom "/admin/menus" ∧
      renderRoute false isTokenValid userRole "/admin/items" =
        RenderResult.redirectLoginFrom "/admin/items" ∧
      renderRoute false isTokenValid userRole "/admin/tables" =
        RenderResult.redirectLoginFrom "/admin/tables" ∧
      renderRoute false isTokenValid userRole "/admin/settings" =
        RenderResult.redirectLoginFrom "/admin/settings" ∧
      renderRoute false isTokenValid userRole "/posAdmin/pos" =
        RenderResult.redirectLoginFrom "/posAdmin/pos" ∧
      renderRoute false isTokenValid userRole "/chef" =
        RenderResult.page "ChefDashboard" ∧
      renderRoute false isTokenValid userRole "/chef/orders" =
        RenderResult.page "ChefOrdersPage" ∧
      renderRoute false isTokenValid userRole "/waiter" =
        RenderResult.page "WaiterDashboard" ∧
      renderRoute false isTokenValid userRole "/waiter/orders" =
        RenderResult.page "WaiterOrdersPage" ∧
      renderRoute false isTokenValid userRole "/waiter/ordersKOT" =
        RenderResult.page "WaiterOrdersKOTPage" := by
  intro tv role
  rcases role with _ | r
  · cases tv <;> decide
  · cases r <;> cases tv <;> decide

/-- The batch-delete dialog description is never the empty string, so
it is always truthy as a prop. -/
theorem batchDeleteDialogDescription_ne_empty (selectedCount : Nat) :
    batchDeleteDialogDescription selectedCount ≠ "" := by
  intro h
  have hl := congrArg String.length h
  simp only [batchDeleteDialogDescription, String.length_append] at hl
  have hpos : 0 < ("Are you sure you want to delete ").length := by decide
  have h0 : ("" : String).length = 0 := rfl
  rw [h0] at hl
  omega

/-- C9 counterexample: with one menu item referencing category 7, the
batch-delete dialog still offers the confirming action and the batch
handler issues the DELETE for category 7 — the referencing-item count
does not block the batch path. -/
theorem C9_counterexample_batch_bypasses_item_check :
    getCategoryItemCount [dalItem] 7 = 1 ∧
    batchDeleteConfirmAvailable [dalItem] [7] = true ∧
    handleBatchDeleteCategories [7] = [7] := by
  refine ⟨by decide, by decide, by decide⟩

/-- C9 amended: the single-delete dialog blocks confirmation while the
referencing-item count is positive, but the batch-delete path does not:
because `CategoryPage` supplies a description to the batch dialog, the
confirming action renders regardless of the summed item count, and the
batch handler issues one DELETE per selected category id with no
item-count check. -/
theorem C9_amended_single_blocks_batch_bypasses :
    (∀ (menuItems : List MenuItem) (currentCategory : Category),
      0 < getCategoryItemCount menuItems currentCategory.id →
      singleDeleteConfirmAvailable menuItems currentCategory = false) ∧
    (∀ (menuItems : List MenuItem) (selectedCategories : List Nat),
      batchDeleteConfirmAvailable menuItems selectedCategories = true) ∧
    (∀ selectedCategories : List Nat, selectedCategories ≠ [] →
      handleBatchDeleteCategories selectedCategories = selectedCategories) := by
  refine ⟨?_, ?_, ?_⟩
  · intro items c h
    have hne : getCategoryItemCount items c.id ≠ 0 := Nat.pos_iff_ne_zero.mp h
    simp [singleDeleteConfirmAvailable, deleteCategoryConfirmAvailable,
      deleteCategoryDialogRendersNothing, strTruthy, hne]
  · intro items sel
    simp [batchDeleteConfirmAvailable, deleteCategoryConfirmAvailable,
      deleteCategoryDialogRendersNothing, strTruthy,
      batchDeleteDialogDescription_ne_empty]
  · intro sel hne
    simp [handleBatchDeleteCategories, List.length_eq_zero, hne]

/-- Witness for C9 amended: the single dialog for category 7 (one
referencing item) blocks; the batch dialog over categories 7 and 9
confirms and deletes both. -/
theorem C9_amended_witness :
    singleDeleteConfirmAvailable [dalItem] startersCategory = false ∧
    batchDeleteConfirmAvailable [dalItem] [7, 9] = true ∧
    handleBatchDeleteCategories [7, 9] = [7, 9] :=
  ⟨C9_amended_single_blocks_batch_bypasses.1 [dalItem] startersCategory (by decide),
   C9_amended_single_blocks_batch_bypasses.2.1 [dalItem] [7, 9],
   C9_amended_single_blocks_batch_bypasses.2.2 [7, 9] (by decide)⟩

/-- C10: the availability toggle is atomic on the items state — when
the backend call fails, the optimistic flip followed by the catch-block
revert restores exactly the pre-call items (given that the clicked
item's flag agrees with the list, as it does when the click originates
from the rendered list); and the optimistic update keeps the length and
changes at most the targeted item, and only its `isAvailable` field. -/
theorem C10_toggle_availability_atomic :
    ∀ (items : List MenuItem) (target : MenuItem),
      ((∀ i ∈ items, i.id = target.id → i.isAvailable = target.isAvailable) →
        chefToggleRevert (chefToggleOptimistic items target) target = items) ∧
      (chefToggleOptimistic items target).length = items.length ∧
      (∀ j ∈ chefToggleOptimistic items target, ∃ i ∈ items,
        j.id = i.id ∧ j.name = i.name ∧ j.categoryId = i.categoryId ∧
        j.fullPrice = i.fullPrice ∧
        j.isAvailable =
          (if i.id = target.id then !i.isAvailable else i.isAvailable)) := by
  intro items t
  refine ⟨?_, by simp [chefToggleOptimistic], ?_⟩
  · intro h
    unfold chefToggleOptimistic chefToggleRevert
    rw [List.map_map]
    apply map_eq_self_of_mem
    intro a ha
    by_cases hid : a.id = t.id
    · have hav := h a ha hid
      obtain ⟨aid, aname, acat, aav, apr⟩ := a
      simp only at hid hav
      simp [Function.comp, hid, hav]
    · obtain ⟨aid, aname, acat, aav, apr⟩ := a
      simp only at hid
      simp [Function.comp, hid]
  · intro j hj
    rw [chefToggleOptimistic, List.mem_map] at hj
    obtain ⟨i, hi, rfl⟩ := hj
    refine ⟨i, hi, ?_⟩
    by_cases hid : i.id = t.id
    · simp [hid]
    · simp [hid]

/-- Witness for C10: flipping and reverting the Dal item in a concrete
two-item list restores the original list. -/
theorem C10_toggle_witness :
    chefToggleRevert (chefToggleOptimistic [dalItem, teaItem] dalItem) dalItem =
      [dalItem, teaItem] :=
  (C10_toggle_availability_atomic [dalItem, teaItem] dalItem).1 (by decide)

end RestaurantClient
